import Mathlib

/-!
Shallow embedding of the `stringly-typed` crate: path-based dynamic access to
nested Rust aggregates.

Sources embedded here:
* `src/src/lib.rs` — the `Value` union, the `UpdateError` enum, and the
  `impl_primitive_type!` implementations of `set_value` / `get_value` /
  `data_type` for `i64`, `f64` and `String`.
* `src/stringly-typed-derive/src/lib.rs` — the code the custom derive
  generates for an aggregate struct: one delegation branch per declared
  field, an `UnknownField` fallback, and the `NotEnoughKeys` error on an
  empty path.
* `src/tests/smoke_tests.rs` — the concrete aggregates `Outer` and `Inner`
  the derive is instantiated at in this repository.

Modelling conventions:
* `i64` is modelled as `Int`: the accessor protocol only stores, retrieves
  and compares integers, never computes with them, so no wraparound can occur.
* `f64` is modelled as `F64`, a carrier of the raw 64-bit pattern with
  decidable equality: the protocol only stores, retrieves and compares
  doubles bit-for-bit (no arithmetic), so the bit pattern is a faithful model.
* A Rust panic (the `unreachable!()` inside `Value::data_type`) is modelled
  as `none` in an `Option`-wrapped result.
* `set_value` mutates `&mut self` in place and returns `Result<(), _>`;
  here it is state-passing: it returns the `Result` paired with the final
  value of the receiver, wrapped in `Option` because the type-error branch
  evaluates `value.data_type()`, which panics on `Value::__NonExhaustive`.
* `get_value` takes `&self` and cannot panic, so it is a plain
  `Except UpdateError Value`.
-/

namespace StringlyTyped

/-- Alias for the builtin string type, for positions where the
`Value.String` constructor would otherwise shadow it. -/
abbrev StdString : Type := String

/-- `pub const DOUBLE_TYPE: &'static str = "double";` -/
def DOUBLE_TYPE : String := "double"

/-- `pub const INTEGER_TYPE: &'static str = "integer";` -/
def INTEGER_TYPE : String := "integer"

/-- `pub const STRING_TYPE: &'static str = "string";` -/
def STRING_TYPE : String := "string"

/-- Carrier for Rust `f64`: the raw 64-bit pattern. The accessor protocol
never performs floating-point arithmetic — doubles are only moved around and
compared — so the bit pattern is a faithful model of an `f64` value. -/
structure F64 where
  bits : Nat
deriving DecidableEq

/-- The `Value` enum of `src/src/lib.rs`: `Integer(i64)`, `Double(f64)`,
`String(String)` (under the `std` feature, which the tests enable), and the
hidden `__NonExhaustive` variant. -/
inductive Value where
  | Integer (v : Int)
  | Double (v : F64)
  | String (v : String)
  | NonExhaustive
deriving DecidableEq

/-- `Value::data_type`. The `__NonExhaustive` arm is `unreachable!()` in the
source, i.e. a panic, modelled as `none`. -/
def Value.dataType : Value → Option StdString
  | Value.Integer _ => some INTEGER_TYPE
  | Value.Double _ => some DOUBLE_TYPE
  | Value.String _ => some STRING_TYPE
  | Value.NonExhaustive => none

/-- `impl From<i64> for Value`. -/
def Value.fromI64 (other : Int) : Value := Value.Integer other

/-- `impl From<f64> for Value`. -/
def Value.fromF64 (other : F64) : Value := Value.Double other

/-- `impl From<String> for Value`. -/
def Value.fromString (other : StdString) : Value := Value.String other

/-- The `UpdateError` enum. The core crate (`src/src/lib.rs`) declares
exactly the first four variants, with the field names of the source
(`elements_remaning` is spelled that way in the source). The fifth variant,
`NotEnoughKeys`, does not exist in the core enum: it appears only in the
token stream emitted by the derive macro
(`src/stringly-typed-derive/src/lib.rs`, `keys.next().ok_or_else(||
::stringly_typed::UpdateError::NotEnoughKeys)?`). It is included here so the
emitted aggregate code can be given semantics at all; see `c1` below. -/
inductive UpdateError where
  | TypeError (found expected : String)
  | TooManyKeys (elementsRemaning : Nat)
  | UnknownField (validFields : List String)
  | CantSerialize (dataType : String)
  | NotEnoughKeys
deriving DecidableEq

/-- `<i64 as StringlyTyped>::data_type`. -/
def I64.dataType : String := INTEGER_TYPE

/-- `<f64 as StringlyTyped>::data_type`. -/
def F64.dataType : String := DOUBLE_TYPE

/-- `<String as StringlyTyped>::data_type`. -/
def Str.dataType : String := STRING_TYPE

/-- `impl_primitive_type!(i64, Integer, INTEGER_TYPE)` — `set_value`.
The source first drains one key: if the path is non-empty it fails with
`TooManyKeys { elements_remaning: keys.count() + 1 }` before ever looking at
`value`. On an empty path it matches the value: `Integer(v)` assigns
`*self = v` and returns `Ok(())`; any other variant builds
`TypeError { expected: self.data_type(), found: value.data_type() }`, and
`value.data_type()` panics (`none`) when the value is `__NonExhaustive`. -/
def I64.setValue (self : Int) (keys : List String) (value : Value) :
    Option ((Except UpdateError Unit) × Int) :=
  match keys with
  | _ :: rest => some (Except.error (UpdateError.TooManyKeys (rest.length + 1)), self)
  | [] =>
    match value with
    | Value.Integer v => some (Except.ok (), v)
    | _ =>
      match Value.dataType value with
      | some found => some (Except.error (UpdateError.TypeError found I64.dataType), self)
      | none => none

/-- `impl_primitive_type!(i64, Integer, INTEGER_TYPE)` — `get_value`:
non-empty path fails with `TooManyKeys`, empty path returns
`Ok(self.clone().into())`. -/
def I64.getValue (self : Int) (keys : List String) : Except UpdateError Value :=
  match keys with
  | _ :: rest => Except.error (UpdateError.TooManyKeys (rest.length + 1))
  | [] => Except.ok (Value.fromI64 self)

/-- `impl_primitive_type!(f64, Double, DOUBLE_TYPE)` — `set_value`. -/
def F64.setValue (self : F64) (keys : List String) (value : Value) :
    Option ((Except UpdateError Unit) × F64) :=
  match keys with
  | _ :: rest => some (Except.error (UpdateError.TooManyKeys (rest.length + 1)), self)
  | [] =>
    match value with
    | Value.Double v => some (Except.ok (), v)
    | _ =>
      match Value.dataType value with
      | some found => some (Except.error (UpdateError.TypeError found F64.dataType), self)
      | none => none

/-- `impl_primitive_type!(f64, Double, DOUBLE_TYPE)` — `get_value`. -/
def F64.getValue (self : F64) (keys : List String) : Except UpdateError Value :=
  match keys with
  | _ :: rest => Except.error (UpdateError.TooManyKeys (rest.length + 1))
  | [] => Except.ok (Value.fromF64 self)

/-- `impl_primitive_type!(String, String, STRING_TYPE)` — `set_value`. -/
def Str.setValue (self : String) (keys : List String) (value : Value) :
    Option ((Except UpdateError Unit) × String) :=
  match keys with
  | _ :: rest => some (Except.error (UpdateError.TooManyKeys (rest.length + 1)), self)
  | [] =>
    match value with
    | Value.String v => some (Except.ok (), v)
    | _ =>
      match Value.dataType value with
      | some found => some (Except.error (UpdateError.TypeError found Str.dataType), self)
      | none => none

/-- `impl_primitive_type!(String, String, STRING_TYPE)` — `get_value`. -/
def Str.getValue (self : String) (keys : List String) : Except UpdateError Value :=
  match keys with
  | _ :: rest => Except.error (UpdateError.TooManyKeys (rest.length + 1))
  | [] => Except.ok (Value.fromString self)

/-- The `Inner` struct of `src/tests/smoke_tests.rs`: `x: f64`, `y: i64`. -/
structure Inner where
  x : F64
  y : Int
deriving DecidableEq

/-- The `Outer` struct of `src/tests/smoke_tests.rs`: `inner: Inner`. -/
structure Outer where
  inner : Inner
deriving DecidableEq

/-- `Inner::default()`: `f64` defaults to the zero bit pattern, `i64` to 0. -/
def Inner.defaultValue : Inner := { x := { bits := 0 }, y := 0 }

/-- `Outer::default()`. -/
def Outer.defaultValue : Outer := { inner := Inner.defaultValue }

/-- The accessor the derive macro generates for `Inner` (read side). The
emitted body is: drain one key, failing with
`::stringly_typed::UpdateError::NotEnoughKeys` if the path is empty; match
the segment against the declared field names in declaration order
(`"x"`, `"y"`), delegating the remaining segments to that field's accessor
(the emitted `self.x.get(keys)`); otherwise fail with
`UnknownField { valid_fields: &["x", "y"] }`. -/
def Inner.get (self : Inner) (keys : List String) : Except UpdateError Value :=
  match keys with
  | [] => Except.error UpdateError.NotEnoughKeys
  | element :: rest =>
    if element = "x" then F64.getValue self.x rest
    else if element = "y" then I64.getValue self.y rest
    else Except.error (UpdateError.UnknownField ["x", "y"])

/-- The accessor the derive macro generates for `Inner` (write side): same
dispatch as `Inner.get`, delegating the remaining segments and the incoming
value unchanged to the matched field (the emitted
`self.x.set(keys, value)`), which mutates that field in place. -/
def Inner.set (self : Inner) (keys : List String) (value : Value) :
    Option ((Except UpdateError Unit) × Inner) :=
  match keys with
  | [] => some (Except.error UpdateError.NotEnoughKeys, self)
  | element :: rest =>
    if element = "x" then
      match F64.setValue self.x rest value with
      | none => none
      | some (r, fieldVal) => some (r, { self with x := fieldVal })
    else if element = "y" then
      match I64.setValue self.y rest value with
      | none => none
      | some (r, fieldVal) => some (r, { self with y := fieldVal })
    else
      some (Except.error (UpdateError.UnknownField ["x", "y"]), self)

/-- The accessor the derive macro generates for `Outer` (read side): single
declared field `inner`. -/
def Outer.get (self : Outer) (keys : List String) : Except UpdateError Value :=
  match keys with
  | [] => Except.error UpdateError.NotEnoughKeys
  | element :: rest =>
    if element = "inner" then Inner.get self.inner rest
    else Except.error (UpdateError.UnknownField ["inner"])

/-- The accessor the derive macro generates for `Outer` (write side). -/
def Outer.set (self : Outer) (keys : List String) (value : Value) :
    Option ((Except UpdateError Unit) × Outer) :=
  match keys with
  | [] => some (Except.error UpdateError.NotEnoughKeys, self)
  | element :: rest =>
    if element = "inner" then
      match Inner.set self.inner rest value with
      | none => none
      | some (r, fieldVal) => some (r, { self with inner := fieldVal })
    else
      some (Except.error (UpdateError.UnknownField ["inner"]), self)

/-- `<Inner as StringlyTyped>::data_type`, as generated by the derive. -/
def Inner.dataType : String := "Inner"

/-- `<Outer as StringlyTyped>::data_type`, as generated by the derive. -/
def Outer.dataType : String := "Outer"

/-- The IEEE-754 bit pattern of the literal `3.14` used by the doc example
and the test fixture (`0x40091EB851EB851F`). -/
def f64lit314 : F64 := { bits := 0x40091EB851EB851F }

/-- A receiver of the accessor protocol present in this repository: one of
the three primitive leaves or one of the two derived aggregates. -/
inductive Receiver where
  | int (v : Int)
  | dbl (v : F64)
  | str (v : String)
  | inn (v : Inner)
  | out (v : Outer)
deriving DecidableEq

/-- `get_value` over any receiver, with the receiver after the call made
explicit. Every `get_value` in the source takes `&self` — a shared borrow —
and its body performs no assignment, so each arm returns the receiver it was
given. -/
def Receiver.getValueT : Receiver → List String → (Except UpdateError Value) × Receiver
  | Receiver.int v, keys => (I64.getValue v keys, Receiver.int v)
  | Receiver.dbl v, keys => (F64.getValue v keys, Receiver.dbl v)
  | Receiver.str v, keys => (Str.getValue v keys, Receiver.str v)
  | Receiver.inn v, keys => (Inner.get v keys, Receiver.inn v)
  | Receiver.out v, keys => (Outer.get v keys, Receiver.out v)

/-- C1: the claim says an aggregate `get_value` on an empty path fails with
`CantSerialize` carrying the aggregate type name. On the code as written it
does not: the derive-generated accessor returns `NotEnoughKeys`, a variant
the core `UpdateError` enum does not even declare, and never `CantSerialize`.
This contradicts the repo test `detect_when_key_is_too_short`, which expects
`CantSerialize` from the empty-path case reached by `Outer::default().get`
on the single segment `inner`. -/
theorem c1_empty_path_on_aggregate :
    Outer.get Outer.defaultValue [] = Except.error UpdateError.NotEnoughKeys ∧
    Outer.get Outer.defaultValue ["inner"] = Except.error UpdateError.NotEnoughKeys ∧
    (Except.error UpdateError.NotEnoughKeys : Except UpdateError Value) ≠
      Except.error (UpdateError.CantSerialize Outer.dataType) ∧
    (Except.error UpdateError.NotEnoughKeys : Except UpdateError Value) ≠
      Except.error (UpdateError.CantSerialize Inner.dataType) := by
  refine ⟨rfl, rfl, ?_, ?_⟩ <;>
    · intro h
      injection h with h2
      exact UpdateError.noConfusion h2

/-- C2: for every aggregate and declared field of this repository
(`Outer.inner`, `Inner.x`, `Inner.y`), a path whose first segment names the
field delegates the remaining path — and, for the write side, the incoming
value — unchanged to that field, and the delegated result (success or error)
is propagated verbatim; the only aggregate-level effect is storing the
field's final state back into the record. -/
theorem c2_field_delegation (o : Outer) (i : Inner) (rest : List String) (v : Value) :
    Outer.get o ("inner" :: rest) = Inner.get o.inner rest ∧
    Inner.get i ("x" :: rest) = F64.getValue i.x rest ∧
    Inner.get i ("y" :: rest) = I64.getValue i.y rest ∧
    Outer.set o ("inner" :: rest) v =
      Option.map (fun p => (p.1, { o with inner := p.2 })) (Inner.set o.inner rest v) ∧
    Inner.set i ("x" :: rest) v =
      Option.map (fun p => (p.1, { i with x := p.2 })) (F64.setValue i.x rest v) ∧
    Inner.set i ("y" :: rest) v =
      Option.map (fun p => (p.1, { i with y := p.2 })) (I64.setValue i.y rest v) := by
  refine ⟨rfl, rfl, rfl, ?_, ?_, ?_⟩
  · cases h : Inner.set o.inner rest v with
    | none => simp [Outer.set, h]
    | some p => simp [Outer.set, h]
  · cases h : F64.setValue i.x rest v with
    | none => simp [Inner.set, h]
    | some p => simp [Inner.set, h]
  · cases h : I64.setValue i.y rest v with
    | none => simp [Inner.set, h]
    | some p => simp [Inner.set, h]

/-- C3: every primitive leaf rejects any non-empty path of length `k`, on
both the read and the write side, with `TooManyKeys` reporting `k`
unconsumed segments; on the write side this happens for every incoming
value (the keys are drained before the value is examined, so no `none` /
panic and no type check occurs) and the stored value is untouched. -/
theorem c3_leaf_over_indexing (a : Int) (b : F64) (c : String) (s : String)
    (rest : List String) (v : Value) :
    I64.setValue a (s :: rest) v =
      some (Except.error (UpdateError.TooManyKeys (s :: rest).length), a) ∧
    I64.getValue a (s :: rest) = Except.error (UpdateError.TooManyKeys (s :: rest).length) ∧
    F64.setValue b (s :: rest) v =
      some (Except.error (UpdateError.TooManyKeys (s :: rest).length), b) ∧
    F64.getValue b (s :: rest) = Except.error (UpdateError.TooManyKeys (s :: rest).length) ∧
    Str.setValue c (s :: rest) v =
      some (Except.error (UpdateError.TooManyKeys (s :: rest).length), c) ∧
    Str.getValue c (s :: rest) = Except.error (UpdateError.TooManyKeys (s :: rest).length) := by
  simp [I64.setValue, I64.getValue, F64.setValue, F64.getValue, Str.setValue, Str.getValue]

/-- C4: a primitive leaf given an empty path and a value whose type tag `t`
differs from the leaf tag fails with `TypeError` whose `found` field is `t`
and whose `expected` field is the leaf tag, and the stored value is
unchanged (the returned state equals the initial state). The hypothesis
`Value.dataType v = some t` states that `v` has a tag at all, i.e. is one of
the three public variants. -/
theorem c4_type_mismatch (a : Int) (b : F64) (c : String) (v : Value) (t : String)
    (h : Value.dataType v = some t) :
    (t ≠ INTEGER_TYPE →
      I64.setValue a [] v = some (Except.error (UpdateError.TypeError t INTEGER_TYPE), a)) ∧
    (t ≠ DOUBLE_TYPE →
      F64.setValue b [] v = some (Except.error (UpdateError.TypeError t DOUBLE_TYPE), b)) ∧
    (t ≠ STRING_TYPE →
      Str.setValue c [] v = some (Except.error (UpdateError.TypeError t STRING_TYPE), c)) := by
  cases v <;>
    simp_all [Value.dataType, I64.setValue, F64.setValue, Str.setValue,
      I64.dataType, F64.dataType, Str.dataType, INTEGER_TYPE, DOUBLE_TYPE, STRING_TYPE]

/-- C4 witness: the two concrete mismatches named by the claim — an integer
leaf written with a double fails with expected `integer`, found `double`,
and a double leaf written with an integer fails with expected `double`,
found `integer`; both leaves keep their stored values. -/
theorem c4_type_mismatch_witness :
    I64.setValue 42 [] (Value.Double { bits := 0 }) =
      some (Except.error (UpdateError.TypeError DOUBLE_TYPE INTEGER_TYPE), 42) ∧
    F64.setValue { bits := 0 } [] (Value.Integer 0) =
      some (Except.error (UpdateError.TypeError INTEGER_TYPE DOUBLE_TYPE), { bits := 0 }) :=
  ⟨(c4_type_mismatch 42 { bits := 0 } "" (Value.Double { bits := 0 }) DOUBLE_TYPE rfl).1
      (by decide),
   (c4_type_mismatch 42 { bits := 0 } "" (Value.Integer 0) INTEGER_TYPE rfl).2.1
      (by decide)⟩

/-- C5: when the first path segment matches no declared field name
(case-sensitive comparison), both accessors of an aggregate fail with
`UnknownField` carrying the complete declared field-name list of that
aggregate, in declaration order (`["inner"]` for `Outer`, `["x", "y"]` for
`Inner`), and the write side leaves the aggregate unchanged. -/
theorem c5_unknown_field (o : Outer) (i : Inner) (seg : String) (rest : List String)
    (v : Value) :
    (seg ≠ "inner" →
      Outer.get o (seg :: rest) = Except.error (UpdateError.UnknownField ["inner"]) ∧
      Outer.set o (seg :: rest) v =
        some (Except.error (UpdateError.UnknownField ["inner"]), o)) ∧
    (seg ≠ "x" → seg ≠ "y" →
      Inner.get i (seg :: rest) = Except.error (UpdateError.UnknownField ["x", "y"]) ∧
      Inner.set i (seg :: rest) v =
        some (Except.error (UpdateError.UnknownField ["x", "y"]), i)) := by
  constructor
  · intro h
    exact ⟨by simp [Outer.get, h], by simp [Outer.set, h]⟩
  · intro h1 h2
    exact ⟨by simp [Inner.get, h1, h2], by simp [Inner.set, h1, h2]⟩

/-- C5 witness: the match is case-sensitive, so the capitalised segments
`Inner` and `X` are unknown fields, and the reported payload is the full
declared list, not the attempted segment. -/
theorem c5_unknown_field_witness :
    Outer.get Outer.defaultValue ["Inner"] =
      Except.error (UpdateError.UnknownField ["inner"]) ∧
    Inner.get Inner.defaultValue ["X"] =
      Except.error (UpdateError.UnknownField ["x", "y"]) :=
  ⟨((c5_unknown_field Outer.defaultValue Inner.defaultValue "Inner" [] (Value.Integer 0)).1
      (by decide)).1,
   ((c5_unknown_field Outer.defaultValue Inner.defaultValue "X" [] (Value.Integer 0)).2
      (by decide) (by decide)).1⟩

/-- C6: for each supported primitive kind, writing `Value::from(v)` through
an empty path succeeds and replaces the stored value with `v`, and reading
back through an empty path returns exactly `Value::from(v)`. -/
theorem c6_round_trip (a : Int) (b : F64) (c : String) (n : Int) (d : F64) (s : String) :
    I64.setValue a [] (Value.fromI64 n) = some (Except.ok (), n) ∧
    I64.getValue n [] = Except.ok (Value.fromI64 n) ∧
    F64.setValue b [] (Value.fromF64 d) = some (Except.ok (), d) ∧
    F64.getValue d [] = Except.ok (Value.fromF64 d) ∧
    Str.setValue c [] (Value.fromString s) = some (Except.ok (), s) ∧
    Str.getValue s [] = Except.ok (Value.fromString s) :=
  ⟨rfl, rfl, rfl, rfl, rfl, rfl⟩

/-- C7: a primitive leaf read with an empty path always succeeds and returns
the current stored value wrapped in the `Value` variant matching the leaf
type; no error constructor can be produced on this branch. -/
theorem c7_get_empty_path (n : Int) (d : F64) (s : String) :
    I64.getValue n [] = Except.ok (Value.Integer n) ∧
    F64.getValue d [] = Except.ok (Value.Double d) ∧
    Str.getValue s [] = Except.ok (Value.String s) :=
  ⟨rfl, rfl, rfl⟩

/-- C8: the concrete scenario of the crate doc example — starting from
`Outer { inner: Inner { x: 3.14, y: 42 } }`, writing `Integer(-7)` at path
`inner.y` succeeds, the resulting state has `y = -7` while `x` keeps the
bit pattern of `3.14`, and reading `inner.y` back gives `Integer(-7)`. -/
theorem c8_concrete_scenario :
    Outer.set { inner := { x := f64lit314, y := 42 } } ["inner", "y"] (Value.Integer (-7)) =
      some (Except.ok (), { inner := { x := f64lit314, y := -7 } }) ∧
    ({ inner := { x := f64lit314, y := -7 } } : Outer).inner.y = -7 ∧
    ({ inner := { x := f64lit314, y := -7 } } : Outer).inner.x = f64lit314 ∧
    Outer.get { inner := { x := f64lit314, y := -7 } } ["inner", "y"] =
      Except.ok (Value.Integer (-7)) :=
  ⟨rfl, rfl, rfl, rfl⟩

/-- C9: `get_value` is pure: on every receiver of the protocol in this
repository and every path, the receiver after a call is the receiver before
(the source takes `&self` and performs no writes), and a second call with
the same path on that post-call receiver returns the same result as the
first. -/
theorem c9_get_is_pure (r : Receiver) (p : List String) :
    (Receiver.getValueT r p).2 = r ∧
    (Receiver.getValueT (Receiver.getValueT r p).2 p).1 = (Receiver.getValueT r p).1 := by
  cases r <;> exact ⟨rfl, rfl⟩

/-- C10: `Value::data_type` yields a tag for exactly the three public
variants and panics (`unreachable!`, modelled `none`) on `__NonExhaustive`;
consequently a leaf `set_value` with an empty path and `__NonExhaustive`
aborts (`none`) instead of returning a `TypeError`, so the error branch is
total only under the precondition that the incoming value has a tag. -/
theorem c10_non_exhaustive_panics (n : Int) (d : F64) (s : String)
    (a : Int) (b : F64) (c : String) :
    Value.dataType (Value.Integer n) = some INTEGER_TYPE ∧
    Value.dataType (Value.Double d) = some DOUBLE_TYPE ∧
    Value.dataType (Value.String s) = some STRING_TYPE ∧
    Value.dataType Value.NonExhaustive = none ∧
    I64.setValue a [] Value.NonExhaustive = none ∧
    F64.setValue b [] Value.NonExhaustive = none ∧
    Str.setValue c [] Value.NonExhaustive = none :=
  ⟨rfl, rfl, rfl, rfl, rfl, rfl, rfl⟩

end StringlyTyped
